import Mathlib

/-!
Shallow embedding of `scripts/load_generator.py`: a synthetic load generator
driving randomized insert/update/select/delete traffic against per-tenant
tables through a connection pool, parameterized by an intensity mode.

Randomness is modelled by explicit inputs (raw draws threaded into each call);
the external database is modelled by an explicit table state together with
failure flags saying which database interactions raise. Effects (connection
checkout, statement execution, commit, rollback, logging, sleeping) are
recorded in an action trace so that control-flow claims can be stated.
-/

namespace LoadGen

/-- The fixed tenant list (`CLIENTS` in the source). -/
def CLIENTS : List String :=
  ["acme_corp", "tech_solutions", "global_services", "innovatech",
   "dataflow_inc", "cloud_systems", "netwise", "securepay",
   "fasttrack_logistics", "greentech_energy"]

/-- `CATEGORIES` in the source. -/
def CATEGORIES : List String :=
  ["sales", "refund", "subscription", "service", "product", "consulting"]

/-- `STATUSES` in the source. -/
def STATUSES : List String :=
  ["pending", "completed", "failed", "processing", "cancelled"]

/-- Statuses drawn by the INSERT statement's status array. -/
def INSERT_STATUSES : List String := ["pending", "completed", "failed", "processing"]

/-- Categories drawn by the INSERT statement's category array. -/
def INSERT_CATEGORIES : List String := ["sales", "refund", "subscription", "service"]

/-- A row of a tenant table (columns of `clients.<tenant>` used by the
generator; `created_at` is modelled as an age in days, `metadata` by its
`batch_id` component). -/
structure Row where
  id : Nat
  amount : ℚ
  status : String
  category : String
  description : String
  batchId : Nat
  ageDays : Nat
  updatedAt : String
deriving DecidableEq, Repr

/-- A tenant table, in its current physical order. -/
abbrev Table := List Row

/-- The external database: one table per tenant name. -/
abbrev Database := List (String × Table)

/-- Look a tenant table up in the database. -/
def dbGet (db : Database) (client : String) : Table :=
  (db.find? (fun p => p.1 == client)).map (·.2) |>.getD []

/-- Replace a tenant table in the database. -/
def dbSet (db : Database) (client : String) (t : Table) : Database :=
  db.map (fun p => if p.1 == client then (client, t) else p)

/-- A delay setting: a fixed number of seconds or the `"random"` sentinel. -/
inductive DelayCfg where
  | fixed (seconds : ℚ)
  | random
deriving DecidableEq, Repr

/-- A batch-size setting: a fixed count or the `"random"` sentinel. -/
inductive BatchCfg where
  | fixed (n : Nat)
  | random
deriving DecidableEq, Repr

/-- One mode profile (`self.configs[mode]`). -/
structure ModeConfig where
  workers : Nat
  delay : DelayCfg
  batch_size : BatchCfg
deriving DecidableEq, Repr

/-- The static mode-profile table built in `LoadGenerator.__init__`. -/
def initConfigs : List (String × ModeConfig) :=
  [("light", ⟨2, .fixed 1, .fixed 10⟩),
   ("medium", ⟨5, .fixed (1/2), .fixed 50⟩),
   ("heavy", ⟨10, .fixed (1/10), .fixed 100⟩),
   ("spike", ⟨15, .fixed (1/20), .fixed 200⟩),
   ("chaos", ⟨8, .random, .random⟩)]

/-- `self.configs[m]` (modes are validated by argparse, so the key is present
in every reachable state; out-of-table lookups default). -/
def lookupConfig (cfgs : List (String × ModeConfig)) (m : String) : ModeConfig :=
  ((cfgs.find? (fun p => p.1 == m)).map (·.2)).getD ⟨0, .fixed 0, .fixed 0⟩

/-- `random.randint(lo, hi)` applied to a raw draw `r`: a value in `[lo, hi]`. -/
def randint (lo hi r : Nat) : Nat := lo + r % (hi + 1 - lo)

/-- `random.uniform(lo, hi)` applied to a raw draw `t ∈ [0,1]`. -/
def uniformQ (lo hi t : ℚ) : ℚ := lo + t * (hi - lo)

/-- The four stats counters (`self.stats`). -/
structure Stats where
  inserts : Nat
  updates : Nat
  selects : Nat
  deletes : Nat
deriving DecidableEq, Repr

/-- Componentwise order on the stats counters. -/
def Stats.le (a b : Stats) : Prop :=
  a.inserts ≤ b.inserts ∧ a.updates ≤ b.updates ∧
  a.selects ≤ b.selects ∧ a.deletes ≤ b.deletes

instance : DecidablePred (fun p : Stats × Stats => Stats.le p.1 p.2) :=
  fun _ => by unfold Stats.le; infer_instance

/-- The mutable attributes of the `LoadGenerator` object: mode, running flag,
stats counters, the profile table, and the number of connections currently
checked out of the pool. -/
structure GenState where
  mode : String
  running : Bool
  stats : Stats
  configs : List (String × ModeConfig)
  poolOut : Nat
deriving DecidableEq, Repr

/-- `LoadGenerator.__init__(mode)`. -/
def initGen (mode : String) : GenState :=
  { mode := mode, running := true, stats := ⟨0, 0, 0, 0⟩,
    configs := initConfigs, poolOut := 0 }

/-- One observable effect of an executor or the worker loop. -/
inductive Action where
  | acquire
  | execute (stmt : String)
  | commit
  | rollback
  | logError (msg : String)
  | release
  | sleep (seconds : ℚ)
deriving DecidableEq, Repr

/-- Which database interactions of one executor call raise
(`psycopg2` errors): connection checkout, the (first) `execute`, the second
`execute` (select only), and `commit`. -/
structure DbFailures where
  acquireFail : Bool
  execFail : Bool
  exec2Fail : Bool
  commitFail : Bool
deriving DecidableEq, Repr

/-- A database call that never raises. -/
def noFail : DbFailures := ⟨false, false, false, false⟩

/-- Result of one executor call: the generator state and database afterwards,
the trace of effects, and the exception escaping the call, if any. -/
structure ExecResult where
  gen : GenState
  db : Database
  trace : List Action
  raised : Option String
deriving Repr

/-- Raw per-row draws of the INSERT statement's SQL-side `random()` calls. -/
structure RowRand where
  amountR : ℚ
  statusR : Nat
  categoryR : Nat

/-- Raw draws consumed by one `insert_records` call. -/
structure InsertRand where
  batchR : Nat
  batchIdR : Nat
  now : String
  rowR : Nat → RowRand

/-- Largest id present in a table (the external store assigns fresh serial
ids above it). -/
def maxId (t : Table) : Nat := t.foldr (fun r acc => max r.id acc) 0

/-- One synthetic row produced by the INSERT statement. -/
def genRow (now : String) (batchId : Nat) (freshId : Nat) (rr : RowRand) : Row :=
  { id := freshId
  , amount := 10000 * rr.amountR
  , status := INSERT_STATUSES.getD (rr.statusR % 4) "pending"
  , category := INSERT_CATEGORIES.getD (rr.categoryR % 4) "sales"
  , description := "Generated at " ++ now
  , batchId := batchId
  , ageDays := 0
  , updatedAt := now }

/-- Resolve a batch-size setting exactly as `insert_records` does:
`config['batch_size'] if config['batch_size'] != 'random' else
random.randint(10, 200)`. -/
def resolveBatch : BatchCfg → Nat → Nat
  | .fixed n, _ => n
  | .random, r => randint 10 200 r

/-- Resolve a delay setting exactly as `worker` does:
the profile value, or `random.uniform(0.1, 2.0)` for the sentinel. -/
def resolveDelay : DelayCfg → ℚ → ℚ
  | .fixed q, _ => q
  | .random, t => uniformQ (1/10) 2 t

/-- `LoadGenerator.insert_records(client)`: check a connection out (outside
the `try` block), resolve the batch size, run the generate-series INSERT,
commit and bump the insert counter on success; on an exception inside the
`try`, roll back and log; always release the connection in `finally`. -/
def insert_records (client : String) (f : DbFailures) (r : InsertRand)
    (gen : GenState) (db : Database) : ExecResult :=
  if f.acquireFail then
    { gen := gen, db := db, trace := [.acquire], raised := some "PoolError" }
  else
    let g1 : GenState := { gen with poolOut := gen.poolOut + 1 }
    let cfg := lookupConfig g1.configs g1.mode
    let batch := resolveBatch cfg.batch_size r.batchR
    let batchId := randint 1000 9999 r.batchIdR
    if f.execFail then
      { gen := { g1 with poolOut := g1.poolOut - 1 }, db := db,
        trace := [.acquire, .execute "insert", .rollback,
          .logError ("[ERROR] Insert failed for " ++ client ++ ": DbError"),
          .release],
        raised := none }
    else
      let t := dbGet db client
      let t' := t ++ (List.range batch).map
        (fun k => genRow r.now batchId (maxId t + 1 + k) (r.rowR k))
      if f.commitFail then
        { gen := { g1 with poolOut := g1.poolOut - 1 }, db := db,
          trace := [.acquire, .execute "insert", .rollback,
            .logError ("[ERROR] Insert failed for " ++ client ++ ": DbError"),
            .release],
          raised := none }
      else
        { gen := { g1 with
            stats := { g1.stats with inserts := g1.stats.inserts + batch },
            poolOut := g1.poolOut - 1 },
          db := dbSet db client t',
          trace := [.acquire, .execute "insert", .commit, .release],
          raised := none }

/-- Raw draws consumed by one `update_records` call: the `random.choice`
draw for the new status, the `NOW()` timestamp, and the row order produced
by the subquery's `ORDER BY random()` (a permutation of the table supplied
as input). -/
structure UpdateRand where
  statusR : Nat
  now : String
  perm : Table

/-- The id set picked by the UPDATE subquery: ids of up to 50 rows in status
`'pending'`, in the random order `perm` (`ORDER BY random() LIMIT 50`). -/
def updateChosen (perm : Table) : List Nat :=
  ((perm.filter (fun r => r.status == "pending")).map Row.id).take 50

/-- The UPDATE statement: every row of the table whose id the subquery
picked gets the new status and `updated_at`; the second component is the
reported rowcount. -/
def updateQuery (t : Table) (perm : Table) (newStatus : String) (now : String) :
    Table × Nat :=
  (t.map (fun r => if r.id ∈ updateChosen perm
      then { r with status := newStatus, updatedAt := now } else r),
   (t.filter (fun r => decide (r.id ∈ updateChosen perm))).length)

/-- `LoadGenerator.update_records(client)`: check a connection out, pick a
random new status, run the UPDATE (up to 50 random `'pending'` rows), commit
and add `cur.rowcount` to the update counter on success; on an exception
inside the `try`, roll back and log; always release. -/
def update_records (client : String) (f : DbFailures) (r : UpdateRand)
    (gen : GenState) (db : Database) : ExecResult :=
  if f.acquireFail then
    { gen := gen, db := db, trace := [.acquire], raised := some "PoolError" }
  else
    let g1 : GenState := { gen with poolOut := gen.poolOut + 1 }
    let new_status := STATUSES.getD (r.statusR % STATUSES.length) "pending"
    if f.execFail then
      { gen := { g1 with poolOut := g1.poolOut - 1 }, db := db,
        trace := [.acquire, .execute "update", .rollback,
          .logError ("[ERROR] Update failed for " ++ client ++ ": DbError"),
          .release],
        raised := none }
    else
      let t := dbGet db client
      let res := updateQuery t r.perm new_status r.now
      if f.commitFail then
        { gen := { g1 with poolOut := g1.poolOut - 1 }, db := db,
          trace := [.acquire, .execute "update", .rollback,
            .logError ("[ERROR] Update failed for " ++ client ++ ": DbError"),
            .release],
          raised := none }
      else
        { gen := { g1 with
            stats := { g1.stats with updates := g1.stats.updates + res.2 },
            poolOut := g1.poolOut - 1 },
          db := dbSet db client res.1,
          trace := [.acquire, .execute "update", .commit, .release],
          raised := none }

/-- One output row of the aggregation query. -/
structure AggRow where
  category : String
  status : String
  count : Nat
  avg_amount : ℚ
  total_amount : ℚ
deriving DecidableEq, Repr

/-- Descending order on `total_amount` (the query's `ORDER BY total_amount
DESC`). -/
def aggGE (a b : AggRow) : Prop := b.total_amount ≤ a.total_amount

instance : DecidableRel aggGE := fun a b => by unfold aggGE; infer_instance

instance : IsTotal AggRow aggGE := ⟨fun a b => le_total b.total_amount a.total_amount⟩

instance : IsTrans AggRow aggGE := ⟨fun _ _ _ h1 h2 => le_trans h2 h1⟩

/-- The aggregation query of `select_records`: group the table by
(category, status), compute COUNT/AVG/SUM of `amount` per group, order by
total descending. -/
def aggregateQuery (t : Table) : List AggRow :=
  let keys := (t.map (fun r => (r.category, r.status))).dedup
  let rows := keys.map (fun k =>
    let g := t.filter (fun r => r.category == k.1 && r.status == k.2)
    let s := (g.map (·.amount)).sum
    { category := k.1, status := k.2, count := g.length,
      avg_amount := s / g.length, total_amount := s })
  rows.insertionSort aggGE

/-- Raw draws consumed by one `select_records` call: the `random.random()`
draw deciding the second query, and per-outer-row random orders for the
lateral subquery's `ORDER BY random()`. -/
structure SelectRand where
  joinR : ℚ
  relPerm : Nat → Table

/-- The lateral-join query of `select_records`: for each row, one related
row's category picked from the rest of the table in a random order; rows
with no partner produce nothing; overall result capped at `LIMIT 100`. -/
def lateralQuery (t : Table) (relPerm : Nat → Table) : List (Row × String) :=
  (t.filterMap (fun r1 =>
    (((relPerm r1.id).filter (fun r2 => r2.id != r1.id)).head?).map
      (fun r2 => (r1, r2.category)))).take 100

/-- `LoadGenerator.select_records(client)`: check a connection out, run the
aggregation query and bump the select counter; then, when
`random.random() > 0.7`, run the lateral-join query and bump the counter
again; on an exception inside the `try` only log (no rollback); always
release. Returns the fetched result sets alongside the execution result. -/
def select_records (client : String) (f : DbFailures) (r : SelectRand)
    (gen : GenState) (db : Database) :
    ExecResult × List AggRow × List (Row × String) :=
  if f.acquireFail then
    ({ gen := gen, db := db, trace := [.acquire], raised := some "PoolError" },
     [], [])
  else
    let g1 : GenState := { gen with poolOut := gen.poolOut + 1 }
    if f.execFail then
      ({ gen := { g1 with poolOut := g1.poolOut - 1 }, db := db,
         trace := [.acquire, .execute "select_agg",
           .logError ("[ERROR] Select failed for " ++ client ++ ": DbError"),
           .release],
         raised := none },
       [], [])
    else
      let t := dbGet db client
      let aggRes := aggregateQuery t
      let g2 : GenState := { g1 with
        stats := { g1.stats with selects := g1.stats.selects + 1 } }
      if (7 : ℚ)/10 < r.joinR then
        if f.exec2Fail then
          ({ gen := { g2 with poolOut := g2.poolOut - 1 }, db := db,
             trace := [.acquire, .execute "select_agg", .execute "select_join",
               .logError ("[ERROR] Select failed for " ++ client ++ ": DbError"),
               .release],
             raised := none },
           aggRes, [])
        else
          let joinRes := lateralQuery t r.relPerm
          ({ gen := { g2 with
               stats := { g2.stats with selects := g2.stats.selects + 1 },
               poolOut := g2.poolOut - 1 },
             db := db,
             trace := [.acquire, .execute "select_agg", .execute "select_join",
               .release],
             raised := none },
           aggRes, joinRes)
      else
        ({ gen := { g2 with poolOut := g2.poolOut - 1 }, db := db,
           trace := [.acquire, .execute "select_agg", .release],
           raised := none },
         aggRes, [])

/-- Raw draws consumed by one `delete_records` call: the row order produced
by the subquery's `ORDER BY random()`. -/
structure DeleteRand where
  perm : Table

/-- Eligibility filter of the DELETE subquery: status in
`('cancelled', 'failed')` and `created_at` more than 30 days old. -/
def deleteEligible (r : Row) : Bool :=
  (r.status == "cancelled" || r.status == "failed") && 30 < r.ageDays

/-- The id set picked by the DELETE subquery: ids of up to 20 eligible rows
in the random order `perm` (`ORDER BY random() LIMIT 20`). -/
def deleteChosen (perm : Table) : List Nat :=
  ((perm.filter deleteEligible).map Row.id).take 20

/-- The DELETE statement: every row of the table whose id the subquery
picked is removed; the second component is the reported rowcount. -/
def deleteQuery (t : Table) (perm : Table) : Table × Nat :=
  (t.filter (fun r => decide (r.id ∉ deleteChosen perm)),
   (t.filter (fun r => decide (r.id ∈ deleteChosen perm))).length)

/-- `LoadGenerator.delete_records(client)`: check a connection out, run the
DELETE (up to 20 old cancelled/failed rows), commit and add `cur.rowcount`
to the delete counter on success; on an exception inside the `try`, roll
back and log; always release. -/
def delete_records (client : String) (f : DbFailures) (r : DeleteRand)
    (gen : GenState) (db : Database) : ExecResult :=
  if f.acquireFail then
    { gen := gen, db := db, trace := [.acquire], raised := some "PoolError" }
  else
    let g1 : GenState := { gen with poolOut := gen.poolOut + 1 }
    if f.execFail then
      { gen := { g1 with poolOut := g1.poolOut - 1 }, db := db,
        trace := [.acquire, .execute "delete", .rollback,
          .logError ("[ERROR] Delete failed for " ++ client ++ ": DbError"),
          .release],
        raised := none }
    else
      let t := dbGet db client
      let res := deleteQuery t r.perm
      if f.commitFail then
        { gen := { g1 with poolOut := g1.poolOut - 1 }, db := db,
          trace := [.acquire, .execute "delete", .rollback,
            .logError ("[ERROR] Delete failed for " ++ client ++ ": DbError"),
            .release],
          raised := none }
      else
        { gen := { g1 with
            stats := { g1.stats with deletes := g1.stats.deletes + res.2 },
            poolOut := g1.poolOut - 1 },
          db := dbSet db client res.1,
          trace := [.acquire, .execute "delete", .commit, .release],
          raised := none }

/-- The four operations of the worker loop. -/
inductive Op where
  | insert
  | update
  | select
  | delete
deriving DecidableEq, Repr

/-- `random.choice(CLIENTS)` applied to a raw draw: a uniformly chosen
tenant. -/
def pickClient (r : Nat) : String := CLIENTS.getD (r % CLIENTS.length) ""

/-- `random.choices(['insert','update','select','delete'],
weights=[40, 25, 30, 5])` applied to a raw draw uniform over `[0, 100)`:
cumulative buckets 40 / 65 / 95 / 100. -/
def pickOp (r : Nat) : Op :=
  if r % 100 < 40 then .insert
  else if r % 100 < 65 then .update
  else if r % 100 < 95 then .select
  else .delete

/-- Raw draws consumed by one iteration of the worker loop. -/
structure IterIn where
  clientR : Nat
  opR : Nat
  fails : DbFailures
  ins : InsertRand
  upd : UpdateRand
  sel : SelectRand
  del : DeleteRand
  delayR : ℚ

/-- The `if operation == ...` dispatch chain of `LoadGenerator.worker`: pick
a tenant and a weighted-random operation and invoke the matching executor. -/
def execDispatch (it : IterIn) (gen : GenState) (db : Database) : ExecResult :=
  let client := pickClient it.clientR
  match pickOp it.opR with
  | .insert => insert_records client it.fails it.ins gen db
  | .update => update_records client it.fails it.upd gen db
  | .select => (select_records client it.fails it.sel gen db).1
  | .delete => delete_records client it.fails it.del gen db

/-- One iteration body of `LoadGenerator.worker`: dispatch to an executor,
then sleep for the resolved delay (`cfg` is the profile the worker read at
entry). An exception escaping the executor skips the sleep and propagates. -/
def workerStep (cfg : ModeConfig) (it : IterIn) (gen : GenState)
    (db : Database) : ExecResult :=
  let res := execDispatch it gen db
  match res.raised with
  | some _ => res
  | none => { res with trace := res.trace ++ [.sleep (resolveDelay cfg.delay it.delayR)] }

/-- Result of running a worker over a finite trace of iteration draws. -/
structure WorkerResult where
  gen : GenState
  db : Database
  trace : List Action
  raised : Option String
  processed : Nat
deriving Repr

/-- The `while self.running` loop of `LoadGenerator.worker`, driven by a
finite list of per-iteration draws: each pass re-checks the running flag,
runs one iteration body, and stops (re-raising) if an exception escaped the
executor. `processed` counts fully completed iterations. -/
def workerLoop (cfg : ModeConfig) (gen : GenState) (db : Database) :
    List IterIn → WorkerResult
  | [] => ⟨gen, db, [], none, 0⟩
  | it :: rest =>
    if gen.running then
      let r := workerStep cfg it gen db
      match r.raised with
      | some e => ⟨r.gen, r.db, r.trace, some e, 0⟩
      | none =>
        let w := workerLoop cfg r.gen r.db rest
        ⟨w.gen, w.db, r.trace ++ w.trace, w.raised, w.processed + 1⟩
    else ⟨gen, db, [], none, 0⟩

/-- `LoadGenerator.worker(worker_id)`: read the profile once, then loop. -/
def worker (gen : GenState) (db : Database) (iters : List IterIn) : WorkerResult :=
  workerLoop (lookupConfig gen.configs gen.mode) gen db iters

/-! Concrete fixtures used to instantiate the theorems. -/

/-- A pending row. -/
def row1 : Row :=
  { id := 1, amount := 5, status := "pending", category := "sales",
    description := "d", batchId := 0, ageDays := 0, updatedAt := "t0" }

/-- An old cancelled row. -/
def row2 : Row :=
  { id := 2, amount := 7, status := "cancelled", category := "refund",
    description := "d", batchId := 0, ageDays := 40, updatedAt := "t0" }

/-- A two-row database for the first tenant. -/
def db0 : Database := [("acme_corp", [row1, row2])]

/-- A freshly initialized generator in the default mode. -/
def g0 : GenState := initGen "light"

/-- A freshly initialized generator in chaos mode. -/
def gChaos : GenState := initGen "chaos"

/-- Fixed per-row draws. -/
def rr0 : RowRand := ⟨0, 0, 0⟩

/-- Fixed insert draws. -/
def ins0 : InsertRand := ⟨0, 0, "t1", fun _ => rr0⟩

/-- Fixed update draws (identity row order). -/
def upd0 : UpdateRand := ⟨0, "t1", [row1, row2]⟩

/-- Fixed select draws (second query not taken). -/
def sel0 : SelectRand := ⟨0, fun _ => [row1, row2]⟩

/-- Fixed delete draws (identity row order). -/
def del0 : DeleteRand := ⟨[row1, row2]⟩

/-- An iteration whose draws select the insert operation and succeed. -/
def it0 : IterIn := ⟨0, 0, noFail, ins0, upd0, sel0, del0, 0⟩

/-- An iteration whose connection checkout raises. -/
def itBad : IterIn := { it0 with fails := { noFail with acquireFail := true } }

/-- A database call whose statement execution raises. -/
def fExec : DbFailures := ⟨false, true, false, false⟩

/-- A chaos-mode insert iteration with raw batch draw 0. -/
def itC1 : IterIn := ⟨0, 0, noFail, ⟨0, 0, "t1", fun _ => rr0⟩, upd0, sel0, del0, 0⟩

/-- A chaos-mode insert iteration with raw batch draw 1. -/
def itC2 : IterIn := { itC1 with ins := ⟨1, 0, "t1", fun _ => rr0⟩ }

/-- Select draws whose `random.random()` value exceeds 0.7. -/
def selHi : SelectRand := ⟨1, fun _ => [row1, row2]⟩

/-- An iteration whose statement execution raises (and is caught). -/
def itFail : IterIn := { it0 with fails := fExec }

end LoadGen

namespace LoadGen

theorem insert_records_frame (c : String) (f : DbFailures) (r : InsertRand)
    (gen : GenState) (db : Database) :
    (insert_records c f r gen db).gen.mode = gen.mode ∧
    (insert_records c f r gen db).gen.running = gen.running ∧
    (insert_records c f r gen db).gen.configs = gen.configs ∧
    (insert_records c f r gen db).gen.poolOut = gen.poolOut ∧
    (insert_records c f r gen db).gen.stats.updates = gen.stats.updates ∧
    (insert_records c f r gen db).gen.stats.selects = gen.stats.selects ∧
    (insert_records c f r gen db).gen.stats.deletes = gen.stats.deletes := by
  cases hf : f.acquireFail <;> cases he : f.execFail <;> cases hc : f.commitFail <;>
    simp [insert_records, hf, he, hc]

theorem update_records_frame (c : String) (f : DbFailures) (r : UpdateRand)
    (gen : GenState) (db : Database) :
    (update_records c f r gen db).gen.mode = gen.mode ∧
    (update_records c f r gen db).gen.running = gen.running ∧
    (update_records c f r gen db).gen.configs = gen.configs ∧
    (update_records c f r gen db).gen.poolOut = gen.poolOut ∧
    (update_records c f r gen db).gen.stats.inserts = gen.stats.inserts ∧
    (update_records c f r gen db).gen.stats.selects = gen.stats.selects ∧
    (update_records c f r gen db).gen.stats.deletes = gen.stats.deletes := by
  cases hf : f.acquireFail <;> cases he : f.execFail <;> cases hc : f.commitFail <;>
    simp [update_records, hf, he, hc]

theorem select_records_frame (c : String) (f : DbFailures) (r : SelectRand)
    (gen : GenState) (db : Database) :
    (select_records c f r gen db).1.gen.mode = gen.mode ∧
    (select_records c f r gen db).1.gen.running = gen.running ∧
    (select_records c f r gen db).1.gen.configs = gen.configs ∧
    (select_records c f r gen db).1.gen.poolOut = gen.poolOut ∧
    (select_records c f r gen db).1.gen.stats.inserts = gen.stats.inserts ∧
    (select_records c f r gen db).1.gen.stats.updates = gen.stats.updates ∧
    (select_records c f r gen db).1.gen.stats.deletes = gen.stats.deletes := by
  cases hf : f.acquireFail <;> cases he : f.execFail <;> cases he2 : f.exec2Fail <;>
    by_cases hj : (7 : ℚ)/10 < r.joinR <;> simp [select_records, hf, he, he2, hj]

theorem delete_records_frame (c : String) (f : DbFailures) (r : DeleteRand)
    (gen : GenState) (db : Database) :
    (delete_records c f r gen db).gen.mode = gen.mode ∧
    (delete_records c f r gen db).gen.running = gen.running ∧
    (delete_records c f r gen db).gen.configs = gen.configs ∧
    (delete_records c f r gen db).gen.poolOut = gen.poolOut ∧
    (delete_records c f r gen db).gen.stats.inserts = gen.stats.inserts ∧
    (delete_records c f r gen db).gen.stats.updates = gen.stats.updates ∧
    (delete_records c f r gen db).gen.stats.selects = gen.stats.selects := by
  cases hf : f.acquireFail <;> cases he : f.execFail <;> cases hc : f.commitFail <;>
    simp [delete_records, hf, he, hc]

theorem insert_records_raised_eq (c : String) (f : DbFailures) (r : InsertRand)
    (gen : GenState) (db : Database) :
    (insert_records c f r gen db).raised =
      if f.acquireFail then some "PoolError" else none := by
  cases hf : f.acquireFail <;> cases he : f.execFail <;> cases hc : f.commitFail <;>
    simp [insert_records, hf, he, hc]

theorem update_records_raised_eq (c : String) (f : DbFailures) (r : UpdateRand)
    (gen : GenState) (db : Database) :
    (update_records c f r gen db).raised =
      if f.acquireFail then some "PoolError" else none := by
  cases hf : f.acquireFail <;> cases he : f.execFail <;> cases hc : f.commitFail <;>
    simp [update_records, hf, he, hc]

theorem select_records_raised_eq (c : String) (f : DbFailures) (r : SelectRand)
    (gen : GenState) (db : Database) :
    (select_records c f r gen db).1.raised =
      if f.acquireFail then some "PoolError" else none := by
  cases hf : f.acquireFail <;> cases he : f.execFail <;> cases he2 : f.exec2Fail <;>
    by_cases hj : (7 : ℚ)/10 < r.joinR <;> simp [select_records, hf, he, he2, hj]

theorem delete_records_raised_eq (c : String) (f : DbFailures) (r : DeleteRand)
    (gen : GenState) (db : Database) :
    (delete_records c f r gen db).raised =
      if f.acquireFail then some "PoolError" else none := by
  cases hf : f.acquireFail <;> cases he : f.execFail <;> cases hc : f.commitFail <;>
    simp [delete_records, hf, he, hc]

theorem execDispatch_raised (it : IterIn) (gen : GenState) (db : Database) :
    (execDispatch it gen db).raised =
      if it.fails.acquireFail then some "PoolError" else none := by
  cases h : pickOp it.opR <;>
    simp only [execDispatch, h, insert_records_raised_eq, update_records_raised_eq,
      select_records_raised_eq, delete_records_raised_eq]

theorem workerStep_raised (cfg : ModeConfig) (it : IterIn) (gen : GenState)
    (db : Database) :
    (workerStep cfg it gen db).raised = (execDispatch it gen db).raised := by
  unfold workerStep
  cases h : (execDispatch it gen db).raised <;> simp [h]

theorem execDispatch_frame (it : IterIn) (gen : GenState) (db : Database) :
    (execDispatch it gen db).gen.mode = gen.mode ∧
    (execDispatch it gen db).gen.running = gen.running ∧
    (execDispatch it gen db).gen.configs = gen.configs := by
  cases h : pickOp it.opR <;> simp only [execDispatch, h]
  · exact ⟨(insert_records_frame _ _ _ _ _).1, (insert_records_frame _ _ _ _ _).2.1,
      (insert_records_frame _ _ _ _ _).2.2.1⟩
  · exact ⟨(update_records_frame _ _ _ _ _).1, (update_records_frame _ _ _ _ _).2.1,
      (update_records_frame _ _ _ _ _).2.2.1⟩
  · exact ⟨(select_records_frame _ _ _ _ _).1, (select_records_frame _ _ _ _ _).2.1,
      (select_records_frame _ _ _ _ _).2.2.1⟩
  · exact ⟨(delete_records_frame _ _ _ _ _).1, (delete_records_frame _ _ _ _ _).2.1,
      (delete_records_frame _ _ _ _ _).2.2.1⟩

theorem insert_records_success_inserts (c : String) (f : DbFailures)
    (r : InsertRand) (gen : GenState) (db : Database)
    (hf : f.acquireFail = false) (he : f.execFail = false)
    (hc : f.commitFail = false) :
    (insert_records c f r gen db).gen.stats.inserts =
      gen.stats.inserts +
        resolveBatch (lookupConfig gen.configs gen.mode).batch_size r.batchR := by
  simp [insert_records, hf, he, hc]

theorem insert_records_failure_inserts (c : String) (f : DbFailures)
    (r : InsertRand) (gen : GenState) (db : Database)
    (h : f.acquireFail = true ∨ f.execFail = true ∨ f.commitFail = true) :
    (insert_records c f r gen db).gen.stats.inserts = gen.stats.inserts := by
  cases hf : f.acquireFail <;> cases he : f.execFail <;> cases hc : f.commitFail <;>
    simp_all [insert_records]

theorem resolveBatch_random_range (r : Nat) :
    10 ≤ resolveBatch BatchCfg.random r ∧ resolveBatch BatchCfg.random r ≤ 200 := by
  simp only [resolveBatch, randint]
  have : r % 191 < 191 := Nat.mod_lt _ (by norm_num)
  omega

theorem resolveDelay_random_range (t : ℚ) (h0 : 0 ≤ t) (h1 : t ≤ 1) :
    1/10 ≤ resolveDelay DelayCfg.random t ∧ resolveDelay DelayCfg.random t ≤ 2 := by
  simp only [resolveDelay, uniformQ]
  constructor
  · nlinarith
  · nlinarith

theorem Stats.le_rfl (a : Stats) : Stats.le a a :=
  ⟨le_refl _, le_refl _, le_refl _, le_refl _⟩

theorem Stats.le_trans {a b c : Stats} (h1 : Stats.le a b) (h2 : Stats.le b c) :
    Stats.le a c :=
  ⟨h1.1.trans h2.1, h1.2.1.trans h2.2.1, h1.2.2.1.trans h2.2.2.1,
   h1.2.2.2.trans h2.2.2.2⟩

theorem insert_records_stats_mono (c : String) (f : DbFailures) (r : InsertRand)
    (gen : GenState) (db : Database) :
    Stats.le gen.stats (insert_records c f r gen db).gen.stats := by
  cases hf : f.acquireFail <;> cases he : f.execFail <;> cases hc : f.commitFail <;>
    simp [insert_records, Stats.le, hf, he, hc, Nat.le_add_right]

theorem update_records_stats_mono (c : String) (f : DbFailures) (r : UpdateRand)
    (gen : GenState) (db : Database) :
    Stats.le gen.stats (update_records c f r gen db).gen.stats := by
  cases hf : f.acquireFail <;> cases he : f.execFail <;> cases hc : f.commitFail <;>
    simp [update_records, Stats.le, hf, he, hc, Nat.le_add_right]

theorem select_records_stats_mono (c : String) (f : DbFailures) (r : SelectRand)
    (gen : GenState) (db : Database) :
    Stats.le gen.stats (select_records c f r gen db).1.gen.stats := by
  cases hf : f.acquireFail <;> cases he : f.execFail <;> cases he2 : f.exec2Fail <;>
    by_cases hj : (7 : ℚ)/10 < r.joinR <;>
    simp [select_records, Stats.le, hf, he, he2, hj, Nat.le_add_right]
  all_goals exact (gen.stats.selects.le_add_right 1).trans (Nat.le_add_right _ 1)

theorem delete_records_stats_mono (c : String) (f : DbFailures) (r : DeleteRand)
    (gen : GenState) (db : Database) :
    Stats.le gen.stats (delete_records c f r gen db).gen.stats := by
  cases hf : f.acquireFail <;> cases he : f.execFail <;> cases hc : f.commitFail <;>
    simp [delete_records, Stats.le, hf, he, hc, Nat.le_add_right]

theorem execDispatch_stats_mono (it : IterIn) (gen : GenState) (db : Database) :
    Stats.le gen.stats (execDispatch it gen db).gen.stats := by
  cases h : pickOp it.opR <;> simp only [execDispatch, h]
  · exact insert_records_stats_mono _ _ _ _ _
  · exact update_records_stats_mono _ _ _ _ _
  · exact select_records_stats_mono _ _ _ _ _
  · exact delete_records_stats_mono _ _ _ _ _

theorem workerStep_gen (cfg : ModeConfig) (it : IterIn) (gen : GenState)
    (db : Database) :
    (workerStep cfg it gen db).gen = (execDispatch it gen db).gen := by
  unfold workerStep
  cases h : (execDispatch it gen db).raised <;> simp [h]

theorem workerStep_stats_mono (cfg : ModeConfig) (it : IterIn) (gen : GenState)
    (db : Database) :
    Stats.le gen.stats (workerStep cfg it gen db).gen.stats := by
  rw [workerStep_gen]
  exact execDispatch_stats_mono _ _ _

theorem workerLoop_stats_mono (cfg : ModeConfig) (iters : List IterIn) :
    ∀ (gen : GenState) (db : Database),
      Stats.le gen.stats (workerLoop cfg gen db iters).gen.stats := by
  induction iters with
  | nil => intro gen db; exact Stats.le_rfl _
  | cons it rest ih =>
    intro gen db
    simp only [workerLoop]
    by_cases hr : gen.running = true
    · simp only [hr, if_true]
      cases h : (workerStep cfg it gen db).raised with
      | some e =>
        simp only [h]
        exact workerStep_stats_mono _ _ _ _
      | none =>
        simp only [h]
        exact Stats.le_trans (workerStep_stats_mono cfg it gen db)
          (ih (workerStep cfg it gen db).gen (workerStep cfg it gen db).db)
    · simp only [hr, if_false]
      exact Stats.le_rfl _

theorem workerLoop_cons_ok (cfg : ModeConfig) (it : IterIn) (rest : List IterIn)
    (gen : GenState) (db : Database) (hrun : gen.running = true)
    (hok : it.fails.acquireFail = false) :
    workerLoop cfg gen db (it :: rest) =
      { gen := (workerLoop cfg (workerStep cfg it gen db).gen
          (workerStep cfg it gen db).db rest).gen
      , db := (workerLoop cfg (workerStep cfg it gen db).gen
          (workerStep cfg it gen db).db rest).db
      , trace := (workerStep cfg it gen db).trace ++
          (workerLoop cfg (workerStep cfg it gen db).gen
            (workerStep cfg it gen db).db rest).trace
      , raised := (workerLoop cfg (workerStep cfg it gen db).gen
          (workerStep cfg it gen db).db rest).raised
      , processed := (workerLoop cfg (workerStep cfg it gen db).gen
          (workerStep cfg it gen db).db rest).processed + 1 } := by
  have h : (workerStep cfg it gen db).raised = none := by
    rw [workerStep_raised, execDispatch_raised, hok]
    rfl
  simp only [workerLoop, hrun, if_true, h]

theorem workerStep_running (cfg : ModeConfig) (it : IterIn) (gen : GenState)
    (db : Database) :
    (workerStep cfg it gen db).gen.running = gen.running := by
  rw [workerStep_gen]
  exact (execDispatch_frame it gen db).2.1

theorem workerStep_mode (cfg : ModeConfig) (it : IterIn) (gen : GenState)
    (db : Database) :
    (workerStep cfg it gen db).gen.mode = gen.mode := by
  rw [workerStep_gen]
  exact (execDispatch_frame it gen db).1

theorem workerStep_configs (cfg : ModeConfig) (it : IterIn) (gen : GenState)
    (db : Database) :
    (workerStep cfg it gen db).gen.configs = gen.configs := by
  rw [workerStep_gen]
  exact (execDispatch_frame it gen db).2.2

theorem workerLoop_all_ok (cfg : ModeConfig) (iters : List IterIn) :
    ∀ (gen : GenState) (db : Database), gen.running = true →
      (∀ it ∈ iters, it.fails.acquireFail = false) →
      (workerLoop cfg gen db iters).raised = none ∧
      (workerLoop cfg gen db iters).processed = iters.length := by
  induction iters with
  | nil => intro gen db _ _; exact ⟨rfl, rfl⟩
  | cons it rest ih =>
    intro gen db hrun hall
    rw [workerLoop_cons_ok cfg it rest gen db hrun (hall it (by simp))]
    have hrun2 : (workerStep cfg it gen db).gen.running = true := by
      rw [workerStep_running]; exact hrun
    have h := ih (workerStep cfg it gen db).gen (workerStep cfg it gen db).db
      hrun2 (fun x hx => hall x (by simp [hx]))
    simpa using h

/-- C9: the four stats counters are monotonically non-decreasing: no
executor call and no worker run ever decreases any counter, so any later
observation dominates any earlier one componentwise. -/
theorem c9_stats_monotone :
    (∀ (c : String) (f : DbFailures) (r : InsertRand) (gen : GenState) (db : Database),
      Stats.le gen.stats (insert_records c f r gen db).gen.stats) ∧
    (∀ (c : String) (f : DbFailures) (r : UpdateRand) (gen : GenState) (db : Database),
      Stats.le gen.stats (update_records c f r gen db).gen.stats) ∧
    (∀ (c : String) (f : DbFailures) (r : SelectRand) (gen : GenState) (db : Database),
      Stats.le gen.stats (select_records c f r gen db).1.gen.stats) ∧
    (∀ (c : String) (f : DbFailures) (r : DeleteRand) (gen : GenState) (db : Database),
      Stats.le gen.stats (delete_records c f r gen db).gen.stats) ∧
    (∀ (gen : GenState) (db : Database) (iters : List IterIn),
      Stats.le gen.stats (worker gen db iters).gen.stats) :=
  ⟨insert_records_stats_mono, update_records_stats_mono,
   select_records_stats_mono, delete_records_stats_mono,
   fun gen db iters => workerLoop_stats_mono _ iters gen db⟩

/-- C2: on a successful `insert_records` call the inserts counter grows by
exactly the resolved batch size N; on any failed call it is unchanged; N is
the profile batch size for a fixed setting and a fresh value in `[10, 200]`
for the `"random"` sentinel. -/
theorem c2_insert_counter (c : String) (f : DbFailures) (r : InsertRand)
    (gen : GenState) (db : Database) :
    (f.acquireFail = false → f.execFail = false → f.commitFail = false →
      (insert_records c f r gen db).gen.stats.inserts =
        gen.stats.inserts +
          resolveBatch (lookupConfig gen.configs gen.mode).batch_size r.batchR) ∧
    (f.acquireFail = true ∨ f.execFail = true ∨ f.commitFail = true →
      (insert_records c f r gen db).gen.stats.inserts = gen.stats.inserts) ∧
    (∀ n, (lookupConfig gen.configs gen.mode).batch_size = BatchCfg.fixed n →
      resolveBatch (lookupConfig gen.configs gen.mode).batch_size r.batchR = n) ∧
    ((lookupConfig gen.configs gen.mode).batch_size = BatchCfg.random →
      10 ≤ resolveBatch (lookupConfig gen.configs gen.mode).batch_size r.batchR ∧
      resolveBatch (lookupConfig gen.configs gen.mode).batch_size r.batchR ≤ 200) := by
  refine ⟨insert_records_success_inserts c f r gen db,
    insert_records_failure_inserts c f r gen db, ?_, ?_⟩
  · intro n hn
    rw [hn]
    rfl
  · intro hr
    rw [hr]
    exact resolveBatch_random_range r.batchR

/-- Witness for C2 at a concrete input: in light mode a successful insert
adds the resolved batch size (10) and a failed one adds nothing. -/
theorem c2_insert_counter_witness :
    (insert_records "acme_corp" noFail ins0 g0 db0).gen.stats.inserts =
      g0.stats.inserts +
        resolveBatch (lookupConfig g0.configs g0.mode).batch_size ins0.batchR ∧
    (insert_records "acme_corp" fExec ins0 g0 db0).gen.stats.inserts =
      g0.stats.inserts ∧
    g0.stats.inserts +
      resolveBatch (lookupConfig g0.configs g0.mode).batch_size ins0.batchR = 10 :=
  ⟨(c2_insert_counter "acme_corp" noFail ins0 g0 db0).1 rfl rfl rfl,
   (c2_insert_counter "acme_corp" fExec ins0 g0 db0).2.1 (Or.inr (Or.inl rfl)),
   by decide⟩

/-- C4: the resolved profiles match the static table for all five modes, and
the `"random"` sentinels of chaos mode resolve, on every single operation,
to a fresh value from that operation's own draw — batch in `[10, 200]`,
delay in `[0.1, 2.0]`; two consecutive worker iterations each contribute
their own freshly resolved batch. -/
theorem c4_mode_profiles :
    lookupConfig initConfigs "light" = ⟨2, .fixed 1, .fixed 10⟩ ∧
    lookupConfig initConfigs "medium" = ⟨5, .fixed (1/2), .fixed 50⟩ ∧
    lookupConfig initConfigs "heavy" = ⟨10, .fixed (1/10), .fixed 100⟩ ∧
    lookupConfig initConfigs "spike" = ⟨15, .fixed (1/20), .fixed 200⟩ ∧
    lookupConfig initConfigs "chaos" = ⟨8, .random, .random⟩ ∧
    (∀ r : Nat, 10 ≤ resolveBatch BatchCfg.random r ∧
      resolveBatch BatchCfg.random r ≤ 200) ∧
    (∀ t : ℚ, 0 ≤ t → t ≤ 1 →
      1/10 ≤ resolveDelay DelayCfg.random t ∧ resolveDelay DelayCfg.random t ≤ 2) ∧
    (∀ (c : String) (f : DbFailures) (r : InsertRand) (gen : GenState) (db : Database),
      gen.mode = "chaos" → gen.configs = initConfigs → f = noFail →
      (insert_records c f r gen db).gen.stats.inserts =
        gen.stats.inserts + randint 10 200 r.batchR) ∧
    (∀ (gen : GenState) (db : Database) (it1 it2 : IterIn),
      gen.mode = "chaos" → gen.configs = initConfigs → gen.running = true →
      it1.fails = noFail → it2.fails = noFail →
      pickOp it1.opR = Op.insert → pickOp it2.opR = Op.insert →
      (worker gen db [it1, it2]).gen.stats.inserts =
        gen.stats.inserts + randint 10 200 it1.ins.batchR
          + randint 10 200 it2.ins.batchR) := by
  refine ⟨rfl, rfl, rfl, rfl, rfl,
    resolveBatch_random_range, resolveDelay_random_range, ?_, ?_⟩
  · intro c f r gen db hmode hcfgs hf
    subst hf
    rw [insert_records_success_inserts c noFail r gen db rfl rfl rfl, hcfgs, hmode]
    rfl
  · intro gen db it1 it2 hmode hcfgs hrun hf1 hf2 hop1 hop2
    unfold worker
    rw [workerLoop_cons_ok _ it1 [it2] gen db hrun (by rw [hf1]; rfl)]
    have hrun1 : (workerStep (lookupConfig gen.configs gen.mode) it1 gen db).gen.running = true := by
      rw [workerStep_running]
      exact hrun
    rw [workerLoop_cons_ok _ it2 []
      (workerStep (lookupConfig gen.configs gen.mode) it1 gen db).gen
      (workerStep (lookupConfig gen.configs gen.mode) it1 gen db).db
      hrun1 (by rw [hf2]; rfl)]
    have hg1 : (workerStep (lookupConfig gen.configs gen.mode) it1 gen db).gen.stats.inserts =
        gen.stats.inserts + randint 10 200 it1.ins.batchR := by
      rw [workerStep_gen]
      simp only [execDispatch, hop1]
      rw [insert_records_success_inserts _ _ _ _ _ (by rw [hf1]; rfl)
        (by rw [hf1]; rfl) (by rw [hf1]; rfl), hcfgs, hmode]
      rfl
    have hmode1 := workerStep_mode (lookupConfig gen.configs gen.mode) it1 gen db
    have hcfgs1 := workerStep_configs (lookupConfig gen.configs gen.mode) it1 gen db
    have hg2 : (workerStep (lookupConfig gen.configs gen.mode) it2
        (workerStep (lookupConfig gen.configs gen.mode) it1 gen db).gen
        (workerStep (lookupConfig gen.configs gen.mode) it1 gen db).db).gen.stats.inserts =
        (workerStep (lookupConfig gen.configs gen.mode) it1 gen db).gen.stats.inserts
          + randint 10 200 it2.ins.batchR := by
      rw [workerStep_gen]
      simp only [execDispatch, hop2]
      rw [insert_records_success_inserts _ _ _ _ _ (by rw [hf2]; rfl)
        (by rw [hf2]; rfl) (by rw [hf2]; rfl), hcfgs1, hmode1, hcfgs, hmode]
      rfl
    simp only [workerLoop]
    rw [hg2, hg1]

/-- Witness for C4 at concrete inputs: the delay range at draw `1/2`, and a
two-iteration chaos worker run whose two inserts resolve fresh batch sizes
10 and 11 from their own draws. -/
theorem c4_mode_profiles_witness :
    (1/10 ≤ resolveDelay DelayCfg.random (1/2) ∧
      resolveDelay DelayCfg.random (1/2) ≤ 2) ∧
    (worker gChaos db0 [itC1, itC2]).gen.stats.inserts =
      gChaos.stats.inserts + randint 10 200 itC1.ins.batchR
        + randint 10 200 itC2.ins.batchR ∧
    gChaos.stats.inserts + randint 10 200 itC1.ins.batchR
        + randint 10 200 itC2.ins.batchR = 21 :=
  ⟨c4_mode_profiles.2.2.2.2.2.2.1 (1/2) (by norm_num) (by norm_num),
   c4_mode_profiles.2.2.2.2.2.2.2.2 gChaos db0 itC1 itC2 rfl rfl rfl rfl rfl
     (by decide) (by decide),
   by decide⟩

/-- C10: each executor call modifies at most its own counter: the three other
counters, the mode, the profile table, the running flag (and the net pool
checkout) are unchanged on every path, for all four executors. -/
theorem c10_executor_frame :
    (∀ (c : String) (f : DbFailures) (r : InsertRand) (gen : GenState) (db : Database),
      (insert_records c f r gen db).gen.mode = gen.mode ∧
      (insert_records c f r gen db).gen.running = gen.running ∧
      (insert_records c f r gen db).gen.configs = gen.configs ∧
      (insert_records c f r gen db).gen.poolOut = gen.poolOut ∧
      (insert_records c f r gen db).gen.stats.updates = gen.stats.updates ∧
      (insert_records c f r gen db).gen.stats.selects = gen.stats.selects ∧
      (insert_records c f r gen db).gen.stats.deletes = gen.stats.deletes) ∧
    (∀ (c : String) (f : DbFailures) (r : UpdateRand) (gen : GenState) (db : Database),
      (update_records c f r gen db).gen.mode = gen.mode ∧
      (update_records c f r gen db).gen.running = gen.running ∧
      (update_records c f r gen db).gen.configs = gen.configs ∧
      (update_records c f r gen db).gen.poolOut = gen.poolOut ∧
      (update_records c f r gen db).gen.stats.inserts = gen.stats.inserts ∧
      (update_records c f r gen db).gen.stats.selects = gen.stats.selects ∧
      (update_records c f r gen db).gen.stats.deletes = gen.stats.deletes) ∧
    (∀ (c : String) (f : DbFailures) (r : SelectRand) (gen : GenState) (db : Database),
      (select_records c f r gen db).1.gen.mode = gen.mode ∧
      (select_records c f r gen db).1.gen.running = gen.running ∧
      (select_records c f r gen db).1.gen.configs = gen.configs ∧
      (select_records c f r gen db).1.gen.poolOut = gen.poolOut ∧
      (select_records c f r gen db).1.gen.stats.inserts = gen.stats.inserts ∧
      (select_records c f r gen db).1.gen.stats.updates = gen.stats.updates ∧
      (select_records c f r gen db).1.gen.stats.deletes = gen.stats.deletes) ∧
    (∀ (c : String) (f : DbFailures) (r : DeleteRand) (gen : GenState) (db : Database),
      (delete_records c f r gen db).gen.mode = gen.mode ∧
      (delete_records c f r gen db).gen.running = gen.running ∧
      (delete_records c f r gen db).gen.configs = gen.configs ∧
      (delete_records c f r gen db).gen.poolOut = gen.poolOut ∧
      (delete_records c f r gen db).gen.stats.inserts = gen.stats.inserts ∧
      (delete_records c f r gen db).gen.stats.updates = gen.stats.updates ∧
      (delete_records c f r gen db).gen.stats.selects = gen.stats.selects) :=
  ⟨insert_records_frame, update_records_frame, select_records_frame,
   delete_records_frame⟩

/-- C1 (amended): any error raised inside an executor's `try` block —
statement execution or commit — is caught there, logged with the failing
tenant's name, and does not propagate: with no connection-checkout failure
the worker loop completes every iteration, failed operations included. (An
error raised by the connection checkout itself, which happens before the
`try` block, does propagate — see the counterexample.) -/
theorem c1_try_errors_contained :
    (∀ (c : String) (f : DbFailures) (r : InsertRand) (gen : GenState) (db : Database),
      f.acquireFail = false →
      (insert_records c f r gen db).raised = none ∧
      ((f.execFail = true ∨ f.commitFail = true) →
        Action.logError ("[ERROR] Insert failed for " ++ c ++ ": DbError") ∈
          (insert_records c f r gen db).trace)) ∧
    (∀ (c : String) (f : DbFailures) (r : UpdateRand) (gen : GenState) (db : Database),
      f.acquireFail = false →
      (update_records c f r gen db).raised = none ∧
      ((f.execFail = true ∨ f.commitFail = true) →
        Action.logError ("[ERROR] Update failed for " ++ c ++ ": DbError") ∈
          (update_records c f r gen db).trace)) ∧
    (∀ (c : String) (f : DbFailures) (r : SelectRand) (gen : GenState) (db : Database),
      f.acquireFail = false →
      (select_records c f r gen db).1.raised = none ∧
      (f.execFail = true →
        Action.logError ("[ERROR] Select failed for " ++ c ++ ": DbError") ∈
          (select_records c f r gen db).1.trace)) ∧
    (∀ (c : String) (f : DbFailures) (r : DeleteRand) (gen : GenState) (db : Database),
      f.acquireFail = false →
      (delete_records c f r gen db).raised = none ∧
      ((f.execFail = true ∨ f.commitFail = true) →
        Action.logError ("[ERROR] Delete failed for " ++ c ++ ": DbError") ∈
          (delete_records c f r gen db).trace)) ∧
    (∀ (gen : GenState) (db : Database) (iters : List IterIn),
      gen.running = true →
      (∀ it ∈ iters, it.fails.acquireFail = false) →
      (worker gen db iters).raised = none ∧
      (worker gen db iters).processed = iters.length) := by
  refine ⟨?_, ?_, ?_, ?_, ?_⟩
  · intro c f r gen db hacq
    refine ⟨by rw [insert_records_raised_eq, hacq]; rfl, ?_⟩
    rintro (he | hc) <;>
      cases hf2 : f.execFail <;> cases hc2 : f.commitFail <;>
      simp_all [insert_records]
  · intro c f r gen db hacq
    refine ⟨by rw [update_records_raised_eq, hacq]; rfl, ?_⟩
    rintro (he | hc) <;>
      cases hf2 : f.execFail <;> cases hc2 : f.commitFail <;>
      simp_all [update_records]
  · intro c f r gen db hacq
    refine ⟨by rw [select_records_raised_eq, hacq]; rfl, ?_⟩
    intro he
    simp [select_records, hacq, he]
  · intro c f r gen db hacq
    refine ⟨by rw [delete_records_raised_eq, hacq]; rfl, ?_⟩
    rintro (he | hc) <;>
      cases hf2 : f.execFail <;> cases hc2 : f.commitFail <;>
      simp_all [delete_records]
  · intro gen db iters hrun hall
    exact workerLoop_all_ok _ iters gen db hrun hall

/-- Witness for the amended C1 at concrete inputs: a caught insert failure
is logged and raises nothing, and a worker run whose first operation fails
still processes both iterations. -/
theorem c1_try_errors_contained_witness :
    (insert_records "acme_corp" fExec ins0 g0 db0).raised = none ∧
    Action.logError ("[ERROR] Insert failed for " ++ "acme_corp" ++ ": DbError") ∈
      (insert_records "acme_corp" fExec ins0 g0 db0).trace ∧
    (worker g0 db0 [itFail, it0]).raised = none ∧
    (worker g0 db0 [itFail, it0]).processed = [itFail, it0].length :=
  ⟨(c1_try_errors_contained.1 "acme_corp" fExec ins0 g0 db0 rfl).1,
   (c1_try_errors_contained.1 "acme_corp" fExec ins0 g0 db0 rfl).2 (Or.inl rfl),
   (c1_try_errors_contained.2.2.2.2 g0 db0 [itFail, it0] rfl (by decide)).1,
   (c1_try_errors_contained.2.2.2.2 g0 db0 [itFail, it0] rfl (by decide)).2⟩

/-- Counterexample to C1 as stated: an error raised by the connection
checkout (`self.get_connection()`, called before the `try` block) is not
caught inside the executor; it escapes into the worker loop, which then
does not process its next iteration. -/
theorem c1_acquire_error_propagates :
    (insert_records "acme_corp" ⟨true, false, false, false⟩ ins0 g0 db0).raised =
      some "PoolError" ∧
    (worker g0 db0 [itBad, it0]).raised = some "PoolError" ∧
    (worker g0 db0 [itBad, it0]).processed = 0 := by
  refine ⟨rfl, ?_, ?_⟩ <;> rfl

/-- C3 (amended): on failure, `insert_records`, `update_records` and
`delete_records` roll back and log; `select_records` logs but issues no
rollback; all four executors release the checked-out connection on every
exit path after a successful checkout (net pool checkout zero). -/
theorem c3_rollback_and_release :
    (∀ (c : String) (f : DbFailures) (r : InsertRand) (gen : GenState) (db : Database),
      f.acquireFail = false →
      ((f.execFail = true ∨ f.commitFail = true) →
        Action.rollback ∈ (insert_records c f r gen db).trace ∧
        Action.logError ("[ERROR] Insert failed for " ++ c ++ ": DbError") ∈
          (insert_records c f r gen db).trace) ∧
      Action.release ∈ (insert_records c f r gen db).trace ∧
      (insert_records c f r gen db).gen.poolOut = gen.poolOut) ∧
    (∀ (c : String) (f : DbFailures) (r : UpdateRand) (gen : GenState) (db : Database),
      f.acquireFail = false →
      ((f.execFail = true ∨ f.commitFail = true) →
        Action.rollback ∈ (update_records c f r gen db).trace ∧
        Action.logError ("[ERROR] Update failed for " ++ c ++ ": DbError") ∈
          (update_records c f r gen db).trace) ∧
      Action.release ∈ (update_records c f r gen db).trace ∧
      (update_records c f r gen db).gen.poolOut = gen.poolOut) ∧
    (∀ (c : String) (f : DbFailures) (r : SelectRand) (gen : GenState) (db : Database),
      f.acquireFail = false →
      (f.execFail = true →
        Action.logError ("[ERROR] Select failed for " ++ c ++ ": DbError") ∈
          (select_records c f r gen db).1.trace) ∧
      Action.rollback ∉ (select_records c f r gen db).1.trace ∧
      Action.release ∈ (select_records c f r gen db).1.trace ∧
      (select_records c f r gen db).1.gen.poolOut = gen.poolOut) ∧
    (∀ (c : String) (f : DbFailures) (r : DeleteRand) (gen : GenState) (db : Database),
      f.acquireFail = false →
      ((f.execFail = true ∨ f.commitFail = true) →
        Action.rollback ∈ (delete_records c f r gen db).trace ∧
        Action.logError ("[ERROR] Delete failed for " ++ c ++ ": DbError") ∈
          (delete_records c f r gen db).trace) ∧
      Action.release ∈ (delete_records c f r gen db).trace ∧
      (delete_records c f r gen db).gen.poolOut = gen.poolOut) := by
  refine ⟨?_, ?_, ?_, ?_⟩
  · intro c f r gen db hacq
    cases he : f.execFail <;> cases hc : f.commitFail <;>
      simp_all [insert_records]
  · intro c f r gen db hacq
    cases he : f.execFail <;> cases hc : f.commitFail <;>
      simp_all [update_records]
  · intro c f r gen db hacq
    cases he : f.execFail <;> cases he2 : f.exec2Fail <;>
      by_cases hj : (7 : ℚ)/10 < r.joinR <;>
      simp [select_records, hacq, he, he2, hj]
  · intro c f r gen db hacq
    cases he : f.execFail <;> cases hc : f.commitFail <;>
      simp_all [delete_records]

/-- Witness for the amended C3 at concrete inputs: a failed insert rolls
back and releases; a failed select still releases. -/
theorem c3_rollback_and_release_witness :
    Action.rollback ∈ (insert_records "acme_corp" fExec ins0 g0 db0).trace ∧
    Action.release ∈ (insert_records "acme_corp" fExec ins0 g0 db0).trace ∧
    Action.release ∈ (select_records "acme_corp" fExec sel0 g0 db0).1.trace :=
  ⟨((c3_rollback_and_release.1 "acme_corp" fExec ins0 g0 db0 rfl).1
      (Or.inl rfl)).1,
   (c3_rollback_and_release.1 "acme_corp" fExec ins0 g0 db0 rfl).2.1,
   (c3_rollback_and_release.2.2.1 "acme_corp" fExec sel0 g0 db0 rfl).2.2.1⟩

/-- Counterexample to C3 as stated: on a failed select, the executor logs
the error but performs no rollback. -/
theorem c3_select_failure_no_rollback :
    Action.logError ("[ERROR] Select failed for " ++ "acme_corp" ++ ": DbError") ∈
      (select_records "acme_corp" fExec sel0 g0 db0).1.trace ∧
    Action.rollback ∉ (select_records "acme_corp" fExec sel0 g0 db0).1.trace := by
  refine ⟨?_, ?_⟩ <;> decide

theorem length_filter_mem_le (t : Table) (S : List Nat)
    (h : (t.map Row.id).Nodup) :
    (t.filter (fun r => decide (r.id ∈ S))).length ≤ S.length := by
  have hsub : List.Sublist (t.filter (fun r => decide (r.id ∈ S))) t :=
    List.filter_sublist t
  have hnd : ((t.filter (fun r => decide (r.id ∈ S))).map Row.id).Nodup :=
    (hsub.map Row.id).nodup h
  have hss : ((t.filter (fun r => decide (r.id ∈ S))).map Row.id) ⊆ S := by
    intro x hx
    rcases List.mem_map.mp hx with ⟨row, hrow, hid⟩
    have hp := List.of_mem_filter hrow
    rw [← hid]
    exact of_decide_eq_true hp
  have hlen := (hnd.subperm hss).length_le
  simpa using hlen

theorem mem_chosen_prop (t perm : Table) (P : Row → Bool) (k : Nat)
    (hperm : perm.Perm t) (hids : (t.map Row.id).Nodup) :
    ∀ row ∈ t, row.id ∈ ((perm.filter P).map Row.id).take k → P row = true := by
  intro row hrow hid
  have hx : row.id ∈ (perm.filter P).map Row.id := List.take_subset _ _ hid
  rcases List.mem_map.mp hx with ⟨row', hrow', hid'⟩
  have hP := List.of_mem_filter hrow'
  have hrow't : row' ∈ t := hperm.mem_iff.mp (List.mem_of_mem_filter hrow')
  have heq : row' = row := List.inj_on_of_nodup_map hids hrow't hrow hid'
  rw [← heq]
  exact hP

/-- C5: a successful `update_records` call targets at most 50 rows that were
in status `'pending'`, sets the randomly chosen new status on exactly those
rows, leaves other rows in place, and adds the store-reported affected count
— a natural number, hence never negative, and never above 50 — to the
updates counter. -/
theorem c5_update_records (c : String) (f : DbFailures) (r : UpdateRand)
    (gen : GenState) (db : Database)
    (hacq : f.acquireFail = false) (hexec : f.execFail = false)
    (hcommit : f.commitFail = false)
    (hperm : r.perm.Perm (dbGet db c))
    (hids : ((dbGet db c).map Row.id).Nodup) :
    (update_records c f r gen db).gen.stats.updates =
      gen.stats.updates +
        (updateQuery (dbGet db c) r.perm
          (STATUSES.getD (r.statusR % STATUSES.length) "pending") r.now).2 ∧
    (updateQuery (dbGet db c) r.perm
        (STATUSES.getD (r.statusR % STATUSES.length) "pending") r.now).2 ≤ 50 ∧
    (∀ row ∈ dbGet db c, row.id ∈ updateChosen r.perm →
      row.status = "pending") ∧
    (∀ row ∈ (updateQuery (dbGet db c) r.perm
        (STATUSES.getD (r.statusR % STATUSES.length) "pending") r.now).1,
      row.id ∈ updateChosen r.perm →
      row.status = STATUSES.getD (r.statusR % STATUSES.length) "pending") ∧
    (∀ row ∈ dbGet db c, row.id ∉ updateChosen r.perm →
      row ∈ (updateQuery (dbGet db c) r.perm
        (STATUSES.getD (r.statusR % STATUSES.length) "pending") r.now).1) := by
  refine ⟨?_, ?_, ?_, ?_, ?_⟩
  · simp [update_records, hacq, hexec, hcommit]
  · calc (updateQuery (dbGet db c) r.perm _ r.now).2
        ≤ (updateChosen r.perm).length := length_filter_mem_le _ _ hids
      _ ≤ 50 := List.length_take_le _ _
  · intro row hrow hid
    exact eq_of_beq
      (mem_chosen_prop (dbGet db c) r.perm (fun x => x.status == "pending") 50
        hperm hids row hrow hid)
  · intro row hrow hid
    rcases List.mem_map.mp hrow with ⟨row0, hrow0, hfeq⟩
    by_cases hmem : row0.id ∈ updateChosen r.perm
    · rw [if_pos hmem] at hfeq
      rw [← hfeq]
    · rw [if_neg hmem] at hfeq
      rw [← hfeq] at hid
      exact absurd hid hmem
  · intro row hrow hmem
    exact List.mem_map.mpr ⟨row, hrow, if_neg hmem⟩

/-- Witness for C5 at a concrete input: one pending row, affected count 1,
counter 0 → 1. -/
theorem c5_update_records_witness :
    (update_records "acme_corp" noFail upd0 g0 db0).gen.stats.updates =
      g0.stats.updates +
        (updateQuery (dbGet db0 "acme_corp") upd0.perm
          (STATUSES.getD (upd0.statusR % STATUSES.length) "pending") upd0.now).2 ∧
    (updateQuery (dbGet db0 "acme_corp") upd0.perm
        (STATUSES.getD (upd0.statusR % STATUSES.length) "pending") upd0.now).2 = 1 :=
  ⟨(c5_update_records "acme_corp" noFail upd0 g0 db0 rfl rfl rfl
      (List.Perm.refl _) (by decide)).1,
   by decide⟩

/-- C6: a successful `delete_records` call removes only rows whose status is
`'cancelled'` or `'failed'` and whose age exceeds 30 days, keeps every other
row, and adds the store-reported affected count — a natural number, hence
never negative, and never above 20 — to the deletes counter. -/
theorem c6_delete_records (c : String) (f : DbFailures) (r : DeleteRand)
    (gen : GenState) (db : Database)
    (hacq : f.acquireFail = false) (hexec : f.execFail = false)
    (hcommit : f.commitFail = false)
    (hperm : r.perm.Perm (dbGet db c))
    (hids : ((dbGet db c).map Row.id).Nodup) :
    (delete_records c f r gen db).gen.stats.deletes =
      gen.stats.deletes + (deleteQuery (dbGet db c) r.perm).2 ∧
    (deleteQuery (dbGet db c) r.perm).2 ≤ 20 ∧
    (∀ row ∈ dbGet db c, row.id ∈ deleteChosen r.perm →
      (row.status = "cancelled" ∨ row.status = "failed") ∧ 30 < row.ageDays) ∧
    (∀ row, row ∈ (deleteQuery (dbGet db c) r.perm).1 ↔
      row ∈ dbGet db c ∧ row.id ∉ deleteChosen r.perm) := by
  refine ⟨?_, ?_, ?_, ?_⟩
  · simp [delete_records, hacq, hexec, hcommit]
  · calc (deleteQuery (dbGet db c) r.perm).2
        ≤ (deleteChosen r.perm).length := length_filter_mem_le _ _ hids
      _ ≤ 20 := List.length_take_le _ _
  · intro row hrow hid
    have h := mem_chosen_prop (dbGet db c) r.perm deleteEligible 20
      hperm hids row hrow hid
    simpa [deleteEligible, Bool.and_eq_true, Bool.or_eq_true, beq_iff_eq,
      decide_eq_true_iff] using h
  · intro row
    simp [deleteQuery, List.mem_filter]

/-- Witness for C6 at a concrete input: one old cancelled row, affected
count 1, counter 0 → 1. -/
theorem c6_delete_records_witness :
    (delete_records "acme_corp" noFail del0 g0 db0).gen.stats.deletes =
      g0.stats.deletes + (deleteQuery (dbGet db0 "acme_corp") del0.perm).2 ∧
    (deleteQuery (dbGet db0 "acme_corp") del0.perm).2 = 1 :=
  ⟨(c6_delete_records "acme_corp" noFail del0 g0 db0 rfl rfl rfl
      (List.Perm.refl _) (by decide)).1,
   by decide⟩

theorem aggregateQuery_sorted (t : Table) :
    List.Sorted aggGE (aggregateQuery t) := by
  unfold aggregateQuery
  exact List.sorted_insertionSort aggGE _

/-- C7: `select_records` always runs the aggregation query (grouped by
category/status with count/avg/sum, ordered by total descending); exactly
when the unit draw exceeds 0.7 — an event of probability 0.3 — it also runs
the lateral self-join capped at 100 results; the selects counter grows by 1
when only the first query runs and by 2 when both run. -/
theorem c7_select_queries (c : String) (f : DbFailures) (r : SelectRand)
    (gen : GenState) (db : Database)
    (hacq : f.acquireFail = false) (hexec : f.execFail = false) :
    (select_records c f r gen db).2.1 = aggregateQuery (dbGet db c) ∧
    List.Sorted aggGE (select_records c f r gen db).2.1 ∧
    Action.execute "select_agg" ∈ (select_records c f r gen db).1.trace ∧
    (Action.execute "select_join" ∈ (select_records c f r gen db).1.trace ↔
      (7 : ℚ)/10 < r.joinR) ∧
    (¬ (7 : ℚ)/10 < r.joinR →
      (select_records c f r gen db).1.gen.stats.selects = gen.stats.selects + 1) ∧
    ((7 : ℚ)/10 < r.joinR → f.exec2Fail = false →
      (select_records c f r gen db).1.gen.stats.selects = gen.stats.selects + 2 ∧
      (select_records c f r gen db).2.2 = lateralQuery (dbGet db c) r.relPerm ∧
      (select_records c f r gen db).2.2.length ≤ 100) := by
  have hcap : ∀ (t : Table) (g : Nat → Table), (lateralQuery t g).length ≤ 100 :=
    fun t g => List.length_take_le _ _
  cases he2 : f.exec2Fail <;> by_cases hj : (7 : ℚ)/10 < r.joinR <;>
    simp [select_records, hacq, hexec, he2, hj, aggregateQuery_sorted, hcap]

/-- Witness for C7 at concrete inputs: a draw of 0 runs one query and adds
1; a draw of 1 runs both and adds 2. -/
theorem c7_select_queries_witness :
    (select_records "acme_corp" noFail sel0 g0 db0).1.gen.stats.selects =
      g0.stats.selects + 1 ∧
    (select_records "acme_corp" noFail selHi g0 db0).1.gen.stats.selects =
      g0.stats.selects + 2 :=
  ⟨(c7_select_queries "acme_corp" noFail sel0 g0 db0 rfl rfl).2.2.2.2.1
      (by norm_num [sel0]),
   ((c7_select_queries "acme_corp" noFail selHi g0 db0 rfl rfl).2.2.2.2.2
      (by norm_num [selHi]) rfl).1⟩

/-- C8: on a running iteration the worker picks a tenant uniformly from the
fixed list (each of the 10 tenants for exactly 10 of 100 residues), picks
the operation with weights 40/25/30/5 (exact bucket counts over 100
residues), invokes the matching executor, and afterwards sleeps for the
profile's delay — the fixed profile value, or a fresh value in
`[0.1, 2.0]` for the `"random"` sentinel. -/
theorem c8_worker_iteration :
    (∀ r : Nat, pickClient r ∈ CLIENTS) ∧
    (∀ c ∈ CLIENTS, ((List.range 100).countP (fun r => pickClient r == c)) = 10) ∧
    ((List.range 100).countP (fun r => pickOp r == Op.insert) = 40 ∧
     (List.range 100).countP (fun r => pickOp r == Op.update) = 25 ∧
     (List.range 100).countP (fun r => pickOp r == Op.select) = 30 ∧
     (List.range 100).countP (fun r => pickOp r == Op.delete) = 5) ∧
    (∀ (it : IterIn) (gen : GenState) (db : Database),
      (pickOp it.opR = Op.insert → execDispatch it gen db =
        insert_records (pickClient it.clientR) it.fails it.ins gen db) ∧
      (pickOp it.opR = Op.update → execDispatch it gen db =
        update_records (pickClient it.clientR) it.fails it.upd gen db) ∧
      (pickOp it.opR = Op.select → execDispatch it gen db =
        (select_records (pickClient it.clientR) it.fails it.sel gen db).1) ∧
      (pickOp it.opR = Op.delete → execDispatch it gen db =
        delete_records (pickClient it.clientR) it.fails it.del gen db)) ∧
    (∀ (cfg : ModeConfig) (it : IterIn) (gen : GenState) (db : Database),
      it.fails.acquireFail = false →
      (workerStep cfg it gen db).trace =
        (execDispatch it gen db).trace ++
          [Action.sleep (resolveDelay cfg.delay it.delayR)]) ∧
    (∀ (q t : ℚ), resolveDelay (DelayCfg.fixed q) t = q) ∧
    (∀ t : ℚ, 0 ≤ t → t ≤ 1 →
      1/10 ≤ resolveDelay DelayCfg.random t ∧ resolveDelay DelayCfg.random t ≤ 2) := by
  refine ⟨?_, by decide, by decide, ?_, ?_, fun q t => rfl,
    resolveDelay_random_range⟩
  · intro r
    have h : r % CLIENTS.length < CLIENTS.length := Nat.mod_lt _ (by decide)
    rw [pickClient, List.getD_eq_getElem _ _ h]
    exact List.getElem_mem h
  · intro it gen db
    refine ⟨fun h => ?_, fun h => ?_, fun h => ?_, fun h => ?_⟩ <;>
      simp only [execDispatch, h]
  · intro cfg it gen db hok
    have h : (execDispatch it gen db).raised = none := by
      rw [execDispatch_raised, hok]
      rfl
    unfold workerStep
    simp only [h]

/-- Witness for C8 at concrete inputs: the uniform-count at one tenant, and
a concrete light-mode iteration whose trace ends in the 1-second sleep. -/
theorem c8_worker_iteration_witness :
    ((List.range 100).countP (fun r => pickClient r == "acme_corp") = 10) ∧
    (workerStep ⟨2, DelayCfg.fixed 1, BatchCfg.fixed 10⟩ it0 g0 db0).trace =
      (execDispatch it0 g0 db0).trace ++
        [Action.sleep (resolveDelay (DelayCfg.fixed 1) it0.delayR)] :=
  ⟨c8_worker_iteration.2.1 "acme_corp" (by decide),
   c8_worker_iteration.2.2.2.2.1 ⟨2, DelayCfg.fixed 1, BatchCfg.fixed 10⟩
     it0 g0 db0 rfl⟩

end LoadGen
